import Mathlib

/-!
Shallow embedding of the `uncompress` Ansible module
(plugins/modules/uncompress.py): the filename-derivation function, the
per-format decompressors, the content-type dispatch, the temp-file
materializer `copyfile`, and the orchestrating `main` pipeline, together
with theorems settling the specification claims.

Files are modelled as byte lists with a modification time; the filesystem
is an association list from paths to file data plus a list of directory
paths.  External collaborators (the `file` content sniffer, the gzip and
bz2 decoder libraries, the `xz` command, the URL fetcher, and the
file-attribute applier) are modelled from the spec and marked as such in
their doc comments.
-/

namespace Uncompress

/-! ## Generic list-of-characters helpers (Python string primitives) -/

/-- Boolean prefix test on lists, with propositional equality on elements. -/
def listPre [DecidableEq α] : List α → List α → Bool
  | [], _ => true
  | _ :: _, [] => false
  | a :: as, b :: bs => if a = b then listPre as bs else false

/-- Boolean infix (substring) test on lists: Python's `needle in hay`. -/
def listInf [DecidableEq α] (needle : List α) : List α → Bool
  | [] => needle.isEmpty
  | hay@(_ :: t) => listPre needle hay || listInf needle t

/-- Characters after the last `'/'` (the whole list when there is none):
Python's `s.rsplit('/', 1)[-1]`, also `os.path.basename`. -/
def afterLastSlash (l : List Char) : List Char :=
  (l.reverse.takeWhile (fun c => c ≠ '/')).reverse

/-- Everything after the first occurrence of `sep`:
Python's `s.split(sep, 1)[1]` (caller guarantees an occurrence). -/
def afterFirstSep (sep : List Char) : List Char → List Char
  | [] => []
  | l@(_ :: rest) => if listPre sep l then l.drop sep.length else afterFirstSep sep rest

/-- Characters before the first `'?'`: Python's `s.split('?', 1)[0]`. -/
def beforeQuery (l : List Char) : List Char :=
  l.takeWhile (fun c => c ≠ '?')

/-- Strip trailing `'/'` characters: Python's `s.rstrip('/')`. -/
def rstripSlashes (l : List Char) : List Char :=
  (l.reverse.dropWhile (fun c => c = '/')).reverse

/-! ## Path functions (`posixpath`) -/

/-- `os.path.split`: split at the final slash; the head keeps no trailing
slashes unless it consists only of slashes. -/
def path_split (p : String) : String × String :=
  let l := p.data
  let tail := afterLastSlash l
  let headRaw := l.take (l.length - tail.length)
  let head := if headRaw.any (fun c => c ≠ '/') then rstripSlashes headRaw else headRaw
  (String.mk head, String.mk tail)

/-- `os.path.basename`. -/
def basename (p : String) : String :=
  String.mk (afterLastSlash p.data)

/-- Two-argument `os.path.join` on POSIX paths. -/
def pyJoin (a b : String) : String :=
  if b.data.head? = some '/' then b
  else if a.data = [] ∨ a.data.getLast? = some '/' then a ++ b
  else a ++ "/" ++ b

/-- `os.path.splitext`: split off the extension at the last dot of the
final path component, provided some character of that component strictly
before the dot is not itself a dot (so dotfiles have no extension). -/
def splitext (p : String) : String × String :=
  let l := p.data
  let base := afterLastSlash l
  let dir := l.take (l.length - base.length)
  let afterDot := base.reverse.takeWhile (fun c => c ≠ '.')
  if afterDot.length = base.length then (p, "")
  else
    let stem := base.take (base.length - afterDot.length - 1)
    if stem.any (fun c => c ≠ '.') then
      (String.mk (dir ++ stem), String.mk ('.' :: afterDot.reverse))
    else (p, "")

/-! ## derive_uncompressed_filename -/

/-- URL schemes recognized by the filename deriver. -/
def schemes : List String := ["http", "https", "ftp", "ftps", "file"]

/-- `derive_uncompressed_filename` from uncompress.py: extract the last
path segment of a path or recognized-scheme URL (stripping a query string
for URLs), then rewrite the compression suffix, first match winning:
`.gz`/`.bz2`/`.xz`/`.lzma` stripped, `.txz`/`.tlz` replaced by `.tar`. -/
def derive_uncompressed_filename (src : String) : String :=
  let filename : List Char :=
    if listInf "://".data src.data ∧
        schemes.any (fun sch => listPre (sch ++ "://").data src.data) then
      let path_part := afterFirstSep "://".data src.data
      beforeQuery (afterLastSlash path_part)
    else afterLastSlash src.data
  if listPre ".gz".data.reverse filename.reverse then
    String.mk (filename.take (filename.length - 3))
  else if listPre ".bz2".data.reverse filename.reverse then
    String.mk (filename.take (filename.length - 4))
  else if listPre ".xz".data.reverse filename.reverse then
    String.mk (filename.take (filename.length - 3))
  else if listPre ".lzma".data.reverse filename.reverse then
    String.mk (filename.take (filename.length - 5))
  else if listPre ".txz".data.reverse filename.reverse then
    String.mk (filename.take (filename.length - 4)) ++ ".tar"
  else if listPre ".tlz".data.reverse filename.reverse then
    String.mk (filename.take (filename.length - 4)) ++ ".tar"
  else String.mk filename

/-! ## Filesystem model -/

/-- A regular file: its byte content and its modification time
(the two components of `os.stat` that the module's comparisons read,
besides the file type). -/
structure FileData where
  content : List Nat
  mtime : Nat
deriving DecidableEq, Repr

/-- The files of the filesystem: an association list from absolute paths
to file data (at most one live entry per path; `fsInsert` keeps it so). -/
abbrev FS := List (String × FileData)

/-- Look a path up among the files. -/
def fsLookup : FS → String → Option FileData
  | [], _ => none
  | (q, d) :: t, p => if q = p then some d else fsLookup t p

/-- Remove every entry at a path. -/
def fsErase : FS → String → FS
  | [], _ => []
  | (q, d) :: t, p => if q = p then fsErase t p else (q, d) :: fsErase t p

/-- Create or overwrite the file at a path (Python `open(p, 'wb')` plus
the written bytes). -/
def fsInsert (fs : FS) (p : String) (d : FileData) : FS :=
  (p, d) :: fsErase fs p

/-- `shutil.move`: rename, preserving content and modification time; a
no-op when the source is absent (unreachable in the modelled flows, where
the source always exists when `move` is called). -/
def fsMove (fs : FS) (src dest : String) : FS :=
  match fsLookup fs src with
  | some d => fsInsert (fsErase fs src) dest d
  | none => fs

/-- Host state: regular files plus the set of directory paths. -/
structure Sys where
  files : FS
  dirs : List String
deriving DecidableEq, Repr

/-- `os.path.isfile`. -/
def isfile (fs : FS) (p : String) : Bool :=
  (fsLookup fs p).isSome

/-- `os.path.isdir`. -/
def isdir (sys : Sys) (p : String) : Bool :=
  sys.dirs.contains p

/-- `os.path.getsize`, partial: `none` models the `OSError` raised for a
missing file. -/
def getsize (fs : FS) (p : String) : Option Nat :=
  (fsLookup fs p).map (fun f => f.content.length)

/-! ## External collaborators, modelled from the spec -/

/-- The two gzip magic bytes `\x1f\x8b`. -/
def gzipMagic : List Nat := [31, 139]

/-- The three bzip2 magic bytes `BZh`. -/
def bzip2Magic : List Nat := [66, 90, 104]

/-- The six xz magic bytes `\xfd7zXZ\x00`. -/
def xzMagic : List Nat := [253, 55, 122, 88, 90, 0]

/-- Modelled from the spec: the external `file -b -i` content sniffer
invoked by `filetype`.  It classifies a file purely from its content
signature, reporting a MIME description containing `gzip`, `x-bzip2` or
`x-xz` for the supported formats and an unrelated type otherwise. -/
def fileCommand (content : List Nat) : String :=
  if listPre gzipMagic content then "application/gzip; charset=binary"
  else if listPre bzip2Magic content then "application/x-bzip2; charset=binary"
  else if listPre xzMagic content then "application/x-xz; charset=binary"
  else "text/plain; charset=us-ascii"

/-- Modelled from the spec: the external in-process gzip decoder used by
`ungzip`.  A stream carrying the gzip magic and the minimal ten-byte
header decodes to its payload; anything shorter, or without the magic, is
a truncated-stream or bad-magic decoding error (`none`). -/
def decodeGzip (c : List Nat) : Option (List Nat) :=
  if listPre gzipMagic c ∧ 10 ≤ c.length then some (c.drop 10) else none

/-- Modelled from the spec: the external in-process bzip2 decoder used by
`unbzip`: the four-byte `BZh` header plus level digit precedes the
payload; shorter or unmagiced streams are decoding errors. -/
def decodeBzip2 (c : List Nat) : Option (List Nat) :=
  if listPre bzip2Magic c ∧ 4 ≤ c.length then some (c.drop 4) else none

/-- Modelled from the spec: the stream decoding performed by the external
`xz` tool: the six magic bytes plus a two-byte stream-flags field precede
the payload; shorter or unmagiced streams fail to decode. -/
def decodeXz (c : List Nat) : Option (List Nat) :=
  if listPre xzMagic c ∧ 8 ≤ c.length then some (c.drop 8) else none

/-- The output filename the `xz` tool itself derives for `xz -d src`:
strip `.xz`/`.lzma`, replace `.txz`/`.tlz` by `.tar`, refuse anything
else. -/
def xzOutName (src : String) : Option String :=
  let se := splitext src
  if se.2 = ".xz" ∨ se.2 = ".lzma" then some se.1
  else if se.2 = ".txz" ∨ se.2 = ".tlz" then some (se.1 ++ ".tar")
  else none

/-- Modelled from the spec: the external `xz -k -d src` command invoked
by `unxzip`: when the source exists, decodes, and carries a suffix the
tool understands, the decompressed bytes appear at the tool's own output
name and the source is kept; otherwise the filesystem is untouched (the
module never inspects the command's exit status). -/
def xzTool (now : Nat) (fs : FS) (src : String) : FS :=
  match fsLookup fs src with
  | none => fs
  | some f =>
    match decodeXz f.content, xzOutName src with
    | some out, some name => fsInsert fs name ⟨out, now⟩
    | _, _ => fs

/-- A minimal valid gzip member header (magic, deflate method, no flags,
zero mtime, OS byte), used as the compressed-stream prefix in concrete
scenarios. -/
def gzHeader : List Nat := [31, 139, 8, 0, 0, 0, 0, 0, 0, 3]

/-- A minimal valid bzip2 header (`BZh9`), used as the compressed-stream
prefix in concrete scenarios. -/
def bz2Header : List Nat := [66, 90, 104, 57]

/-- A minimal valid xz stream header (magic plus stream flags), used as
the compressed-stream prefix in concrete scenarios. -/
def xzHeader : List Nat := [253, 55, 122, 88, 90, 0, 0, 4]

/-! ## The decompressors and the materializer -/

/-- `ungzip src dest`: stream the gzip-decoded source into `dest`.
Opening `dest` for writing creates (truncates) it before any decoded byte
arrives, so a decoding failure still leaves an empty `dest` behind; the
non-empty message mirrors the caught exception.  `now` is the clock value
stamped on the written file. -/
def ungzip (now : Nat) (fs : FS) (src dest : String) : FS × String :=
  match fsLookup fs src with
  | none => (fs, "No such file or directory: " ++ src)
  | some f =>
    match decodeGzip f.content with
    | some out => (fsInsert fs dest ⟨out, now⟩, "")
    | none => (fsInsert fs dest ⟨[], now⟩, "Error -3 while decompressing data")

/-- `unbzip src dest`: the bzip2 twin of `ungzip`. -/
def unbzip (now : Nat) (fs : FS) (src dest : String) : FS × String :=
  match fsLookup fs src with
  | none => (fs, "No such file or directory: " ++ src)
  | some f =>
    match decodeBzip2 f.content with
    | some out => (fsInsert fs dest ⟨out, now⟩, "")
    | none => (fsInsert fs dest ⟨[], now⟩, "Invalid data stream")

/-- Outcome of `unxzip`: either a terminal `module.fail_json` with the
filesystem as it stood, or a return with the decompressors' message
convention (empty message means success). -/
inductive XzResult where
  | failJson (fs : FS) (msg : String)
  | ret (fs : FS) (msg : String)
deriving DecidableEq, Repr

/-- The tail of `unxzip` after the output name has been guessed: run the
external tool, check the predicted file appeared, and relocate it to the
temp destination. -/
def xzRun (now : Nat) (fs : FS) (src ufile dest : String) : XzResult :=
  let fs1 := xzTool now fs src
  if isfile fs1 ufile then XzResult.ret (fsMove fs1 ufile dest) ""
  else XzResult.failJson fs1
    (src ++ " should have uncompressed to " ++ ufile ++ ", but alas it did not")

/-- `unxzip src dest`: guess the output filename of `xz -k -d src` from
the source's extension (`module.fail_json` on an extension the table does
not cover), invoke the tool, verify the predicted file materialized, and
move it to `dest`. -/
def unxzip (now : Nat) (fs : FS) (src dest : String) : XzResult :=
  let se := splitext src
  if se.2 = ".xz" ∨ se.2 = ".lzma" then xzRun now fs src se.1 dest
  else if se.2 = ".txz" ∨ se.2 = ".tlz" then xzRun now fs src (se.1 ++ ".tar") dest
  else XzResult.failJson fs ("xz does not understand suffix " ++ se.2)

/-- `filetype`: run `file -b -i` on the source and return its report
(the second component, stdout, of `module.run_command`). -/
def filetype (fs : FS) (src : String) : String :=
  match fsLookup fs src with
  | some f => fileCommand f.content
  | none => ""

/-- Python's `filecmp.cmp(f1, f2, shallow=True)`: files whose `os.stat`
signatures (size and modification time, for two regular files) coincide
are declared equal without reading them; with distinct signatures the
sizes are compared first and then, if equal, the full contents.
A missing operand (an `OSError` in Python, unreachable in the modelled
flows) is rendered as an inequality. -/
def filecmpCmpShallow (fs : FS) (f1 f2 : String) : Bool :=
  match fsLookup fs f1, fsLookup fs f2 with
  | some a, some b =>
    if a.content.length = b.content.length ∧ a.mtime = b.mtime then true
    else if a.content.length = b.content.length then decide (a.content = b.content)
    else false
  | _, _ => false

/-- `copyfile src dest deep_check` from uncompress.py, the materializer:
when `dest` already is a file, judge equivalence by `filecmp.cmp` with
`shallow=True` (deep mode) or by size equality alone (fast mode), and
move the temp file over `dest` exactly when they differ; when `dest` is
absent, move unconditionally.  Returns the filesystem and `changed`. -/
def copyfile (fs : FS) (src dest : String) (deep_check : Bool) : FS × Bool :=
  if isfile fs dest then
    let nodiff :=
      if deep_check then filecmpCmpShallow fs src dest
      else
        match getsize fs dest, getsize fs src with
        | some destsize, some srcsize => decide (destsize = srcsize)
        | _, _ => false
    if nodiff = false then (fsMove fs src dest, true)
    else (fs, false)
  else (fsMove fs src dest, true)

/-! ## The pipeline orchestrator `main` -/

/-- The module's hard-coded scratch directory. -/
def tempdir : String := "/tmp/"

/-- The temp path `main` computes for the decompressed artifact:
`os.path.join(tempdir, ffile)` where `ffile` is the final component of
the resolved destination. -/
def tempPathFor (dest : String) : String :=
  pyJoin tempdir (path_split dest).2

/-- Outcome of a `main` run: `module.exit_json` with the resulting host
state, the `changed` flag and the resolved destination, or
`module.fail_json` with the host state as it stood and the message. -/
inductive MainResult where
  | ok (sys : Sys) (changed : Bool) (dest : String)
  | fail (sys : Sys) (msg : String)
deriving DecidableEq, Repr

/-- The tail of `main` after a gzip/bzip2/xz step produced `(fs, msg)`:
fail on a non-empty message, otherwise materialize via `copyfile` and
exit.  The final `set_fs_attributes_if_different` call is the external
file-attributes collaborator, modelled from the spec as leaving `changed`
alone (the claims' no-attribute-drift hypothesis). -/
def finishStep (sys : Sys) (r : FS × String) (tempsrc dest : String)
    (deep_check : Bool) : MainResult :=
  if r.2 ≠ "" then MainResult.fail ⟨r.1, sys.dirs⟩ r.2
  else
    let cres := copyfile r.1 tempsrc dest deep_check
    MainResult.ok ⟨cres.1, sys.dirs⟩ cres.2 dest

/-- `main` from uncompress.py.  `fetch` is the external URL collaborator
(`fetch_url` composed with the status check: `some body` is a 200
response, `none` any download failure); `now` the clock stamped on
files written during the run.  `~`-expansion is the identity on the
modelled absolute paths; every modelled file is readable, so the
`os.access(src, R_OK)` check never fires; a directory source (whose
`getsize` Python would answer) is not modelled and reads as unreadable. -/
def main (fetch : String → Option (List Nat)) (now : Nat) (sys : Sys)
    (src0 dest0 : String) (copy deep_check : Bool) : MainResult :=
  let dest := if isdir sys dest0
    then pyJoin dest0 (derive_uncompressed_filename src0) else dest0
  let fdir := (path_split dest).1
  let step1 : Except (String) (Sys × String) :=
    if isfile sys.files src0 ∨ isdir sys src0 then Except.ok (sys, src0)
    else if copy then Except.error ("Source '" ++ src0 ++ "' failed to transfer")
    else if listInf "://".data src0.data then
      let package := pyJoin tempdir (String.mk (afterLastSlash src0.data))
      match fetch src0 with
      | some body =>
        Except.ok (⟨fsInsert sys.files package ⟨body, now⟩, sys.dirs⟩, package)
      | none => Except.error ("Failure downloading " ++ src0)
    else Except.error ("Source '" ++ src0 ++ "' does not exist")
  match step1 with
  | Except.error m => MainResult.fail sys m
  | Except.ok (sys1, src) =>
    match fsLookup sys1.files src with
    | none => MainResult.fail sys1 ("Source '" ++ src ++ "' not readable")
    | some f =>
      if f.content.length = 0 then
        MainResult.fail sys1 ("Invalid archive '" ++ src ++ "', the file is 0 bytes")
      else if isdir sys1 fdir = false then
        MainResult.fail sys1 ("Destination '" ++ dest ++ "' is not a directory")
      else
        let tempsrc := tempPathFor dest
        let ftype := filetype sys1.files src
        if listInf "gzip".data ftype.data then
          finishStep sys1 (ungzip now sys1.files src tempsrc) tempsrc dest deep_check
        else if listInf "x-bzip2".data ftype.data then
          finishStep sys1 (unbzip now sys1.files src tempsrc) tempsrc dest deep_check
        else if listInf "x-xz".data ftype.data then
          match unxzip now sys1.files src tempsrc with
          | XzResult.failJson fs m => MainResult.fail ⟨fs, sys1.dirs⟩ m
          | XzResult.ret fs m => finishStep sys1 (fs, m) tempsrc dest deep_check
        else
          MainResult.fail sys1 ("Filetype not supported by uncompress module. " ++ ftype)

/-! ## Laws of the filesystem model -/

lemma fsLookup_erase_ne (fs : FS) (p q : String) (h : p ≠ q) :
    fsLookup (fsErase fs p) q = fsLookup fs q := by
  induction fs with
  | nil => rfl
  | cons e t ih =>
    obtain ⟨r, d⟩ := e
    by_cases hr : r = p
    · subst hr
      simp [fsErase, fsLookup, h, ih]
    · simp [fsErase, fsLookup, hr, ih]

lemma fsLookup_insert_self (fs : FS) (p : String) (d : FileData) :
    fsLookup (fsInsert fs p d) p = some d := by
  simp [fsInsert, fsLookup]

lemma fsLookup_insert_ne (fs : FS) (p q : String) (d : FileData) (h : q ≠ p) :
    fsLookup (fsInsert fs p d) q = fsLookup fs q := by
  simp only [fsInsert, fsLookup]
  rw [if_neg (fun hh => h hh.symm)]
  exact fsLookup_erase_ne fs p q (fun hh => h hh.symm)

lemma takeWhile_append_stop (q : Char → Bool) (xs ys : List Char) (c : Char)
    (hxs : ∀ a ∈ xs, q a = true) (hc : q c = false) :
    (xs ++ c :: ys).takeWhile q = xs := by
  induction xs with
  | nil => simp [List.takeWhile, hc]
  | cons a tl ih =>
    have ha := hxs a (by simp)
    simp only [List.cons_append, List.takeWhile, ha, List.append_eq]
    rw [ih (fun b hb => hxs b (by simp [hb]))]

lemma afterLastSlash_tmp (name : String) (h : ∀ c ∈ name.data, c ≠ '/') :
    afterLastSlash ("/tmp/" ++ name).data = name.data := by
  rw [String.data_append]
  unfold afterLastSlash
  rw [List.reverse_append]
  have h5 : ("/tmp/".data).reverse = ['/', 'p', 'm', 't', '/'] := by decide
  rw [h5]
  rw [takeWhile_append_stop _ name.data.reverse ['p', 'm', 't', '/'] '/'
    (fun a ha => by
      simp only [List.mem_reverse] at ha
      simpa using h a ha)
    (by decide)]
  exact List.reverse_reverse _

lemma path_split_tmp (name : String) (h : ∀ c ∈ name.data, c ≠ '/') :
    path_split ("/tmp/" ++ name) = ("/tmp", name) := by
  simp only [path_split]
  rw [afterLastSlash_tmp name h]
  have hlen5 : ("/tmp/" ++ name).data.length - name.data.length = 5 := by
    rw [String.data_append, List.length_append]
    have h5 : ("/tmp/".data).length = 5 := by decide
    omega
  rw [hlen5]
  have htake : ("/tmp/" ++ name).data.take 5 = "/tmp/".data := by
    rw [String.data_append]
    exact List.take_left' (by decide)
  rw [htake]
  exact congr_arg₂ Prod.mk (by decide) rfl

lemma tempPathFor_tmp (name : String) (h : ∀ c ∈ name.data, c ≠ '/') :
    tempPathFor ("/tmp/" ++ name) = "/tmp/" ++ name := by
  unfold tempPathFor
  rw [path_split_tmp name h]
  have hhd : ¬ (name.data.head? = some '/') := by
    cases hn : name.data with
    | nil => simp
    | cons c tl =>
      simp only [List.head?, Option.some.injEq]
      intro hc
      exact h c (by rw [hn]; exact List.mem_cons_self c tl) hc
  unfold pyJoin
  rw [if_neg hhd, if_pos (Or.inr (by decide))]
  rfl

lemma copyfile_self (fs : FS) (p : String) (dc : Bool) (hp : isfile fs p = true) :
    copyfile fs p p dc = (fs, false) := by
  obtain ⟨d, hd⟩ : ∃ d, fsLookup fs p = some d := by
    unfold isfile at hp
    exact Option.isSome_iff_exists.mp hp
  cases dc <;> simp [copyfile, isfile, hd, getsize, filecmpCmpShallow]

/-! ## Evaluation lemmas for the modelled external collaborators -/

lemma fileCommand_gzHeader (payload : List Nat) :
    fileCommand (gzHeader ++ payload) = "application/gzip; charset=binary" := by
  simp [fileCommand, gzHeader, gzipMagic, listPre]

lemma fileCommand_bz2Header (payload : List Nat) :
    fileCommand (bz2Header ++ payload) = "application/x-bzip2; charset=binary" := by
  simp [fileCommand, bz2Header, gzipMagic, bzip2Magic, listPre]

lemma fileCommand_xzHeader (payload : List Nat) :
    fileCommand (xzHeader ++ payload) = "application/x-xz; charset=binary" := by
  simp [fileCommand, xzHeader, gzipMagic, bzip2Magic, xzMagic, listPre]

lemma decodeGzip_gzHeader (payload : List Nat) :
    decodeGzip (gzHeader ++ payload) = some payload := by
  simp [decodeGzip, gzHeader, gzipMagic, listPre]

lemma decodeBzip2_bz2Header (payload : List Nat) :
    decodeBzip2 (bz2Header ++ payload) = some payload := by
  simp [decodeBzip2, bz2Header, bzip2Magic, listPre]

lemma decodeXz_xzHeader (payload : List Nat) :
    decodeXz (xzHeader ++ payload) = some payload := by
  simp [decodeXz, xzHeader, xzMagic, listPre]

/-! ## Claim theorems -/

/-- Claim C7: a zero-byte source — whether found locally (first
conjunct, any source, any content-free file, any destination and options)
or downloaded from a URL (second conjunct) — is rejected with the
0-bytes terminal error before any format detection or decompression;
the host state in the failure is exactly the pre-decompression state. -/
theorem zero_byte_source_rejected :
    (∀ (fetch : String → Option (List Nat)) (now : Nat) (sys : Sys)
        (src dest : String) (copy dc : Bool) (f : FileData),
      fsLookup sys.files src = some f → f.content.length = 0 →
      main fetch now sys src dest copy dc
        = MainResult.fail sys
            ("Invalid archive '" ++ src ++ "', the file is 0 bytes")) ∧
    (∀ (now : Nat) (sys : Sys) (dest : String) (dc : Bool),
      isfile sys.files "http://e.com/f.gz" = false →
      isdir sys "http://e.com/f.gz" = false →
      main (fun _ => some []) now sys "http://e.com/f.gz" dest false dc
        = MainResult.fail ⟨fsInsert sys.files "/tmp/f.gz" ⟨[], now⟩, sys.dirs⟩
            "Invalid archive '/tmp/f.gz', the file is 0 bytes") := by
  constructor
  · intro fetch now sys src dest copy dc f hs h0
    simp [main, isfile, hs, h0]
  · intro now sys dest dc h1 h2
    simp [main, h1, h2, fsLookup_insert_self,
      (show listInf "://".data "http://e.com/f.gz".data = true by decide),
      (show pyJoin tempdir (String.mk (afterLastSlash "http://e.com/f.gz".data))
          = "/tmp/f.gz" by decide)]

/-- Witness for `zero_byte_source_rejected`: a concrete zero-byte local
source and a concrete empty download are both rejected. -/
theorem zero_byte_source_rejected_witness :
    main (fun _ => none) 9 ⟨[("/s", ⟨[], 0⟩)], []⟩ "/s" "/d/o" true false
      = MainResult.fail ⟨[("/s", ⟨[], 0⟩)], []⟩
          "Invalid archive '/s', the file is 0 bytes" ∧
    main (fun _ => some []) 4 ⟨[], []⟩ "http://e.com/f.gz" "/d/o" false false
      = MainResult.fail ⟨[("/tmp/f.gz", ⟨[], 4⟩)], []⟩
          "Invalid archive '/tmp/f.gz', the file is 0 bytes" :=
  ⟨zero_byte_source_rejected.1 (fun _ => none) 9 ⟨[("/s", ⟨[], 0⟩)], []⟩
      "/s" "/d/o" true false ⟨[], 0⟩ (by decide) (by decide),
   zero_byte_source_rejected.2 4 ⟨[], []⟩ "/d/o" false (by decide) (by decide)⟩

/-- Claim C8: when the detected content type contains none of the
`gzip`, `x-bzip2`, `x-xz` signatures, the pipeline fails terminally with
a message carrying the detected type verbatim, and the host state in the
failure is the untouched input state — no decompressor ran and no temp
file was created. -/
theorem unsupported_format_rejected
    (fetch : String → Option (List Nat)) (now : Nat) (sys : Sys)
    (src dest : String) (copy dc : Bool) (f : FileData)
    (hs : fsLookup sys.files src = some f)
    (hnz : f.content.length ≠ 0)
    (hdd : isdir sys dest = false)
    (hfd : isdir sys (path_split dest).1 = true)
    (h1 : listInf "gzip".data (fileCommand f.content).data = false)
    (h2 : listInf "x-bzip2".data (fileCommand f.content).data = false)
    (h3 : listInf "x-xz".data (fileCommand f.content).data = false) :
    main fetch now sys src dest copy dc
      = MainResult.fail sys
          ("Filetype not supported by uncompress module. " ++ fileCommand f.content) ∧
    (∃ before after,
      ("Filetype not supported by uncompress module. " ++ fileCommand f.content)
        = before ++ fileCommand f.content ++ after) := by
  constructor
  · simp [main, isfile, hs, hnz, hdd, hfd, filetype, h1, h2, h3]
  · exact ⟨"Filetype not supported by uncompress module. ", "", by simp⟩

/-- Witness for `unsupported_format_rejected`: a concrete plain-text
source is rejected with the detected `text/plain` type named in the
message. -/
theorem unsupported_format_rejected_witness :
    main (fun _ => none) 9 ⟨[("/data/x", ⟨[104, 105], 0⟩)], ["/dst"]⟩
        "/data/x" "/dst/out" true false
      = MainResult.fail ⟨[("/data/x", ⟨[104, 105], 0⟩)], ["/dst"]⟩
          ("Filetype not supported by uncompress module. "
            ++ fileCommand [104, 105]) :=
  (unsupported_format_rejected (fun _ => none) 9
    ⟨[("/data/x", ⟨[104, 105], 0⟩)], ["/dst"]⟩ "/data/x" "/dst/out" true false
    ⟨[104, 105], 0⟩ (by decide) (by decide) (by decide) (by decide)
    (by decide) (by decide) (by decide)).1

/-- Claim C1: with `deep_check` requested and an existing destination,
`copyfile` does NOT perform a full byte-for-byte comparison: it calls
`filecmp.cmp` with `shallow=True`, which declares two files equal from
their stat signatures alone.  At the failing input (temp artifact and
destination of equal size and equal modification time but different
content) the code reports `changed = false` and leaves the destination,
while the claim demands `changed = true` and an overwrite; with distinct
modification times the same contents are correctly distinguished, showing
the divergence is exactly the signature fast path. -/
theorem copyfile_deep_misses_equal_signature_change :
    copyfile [("/tmp/o", ⟨[0], 7⟩), ("/dst/o", ⟨[1], 7⟩)] "/tmp/o" "/dst/o" true
      = ([("/tmp/o", ⟨[0], 7⟩), ("/dst/o", ⟨[1], 7⟩)], false) ∧
    copyfile [("/tmp/o", ⟨[0], 7⟩), ("/dst/o", ⟨[1], 8⟩)] "/tmp/o" "/dst/o" true
      = ([("/dst/o", ⟨[0], 7⟩)], true) := by
  decide

/-- Claim C2 (counterexample): at a concrete state where the destination
exists with the same size as the temp artifact (fast comparison),
`copyfile` reports `changed = false` and the temp artifact is still
present afterwards — the scratch file is left behind, contradicting the
claim that it is always removed on the unchanged branch. -/
theorem copyfile_unchanged_temp_left_behind :
    (copyfile [("/tmp/t", ⟨[1, 2], 0⟩), ("/d/o", ⟨[3, 4], 9⟩)] "/tmp/t" "/d/o" false).2
      = false ∧
    fsLookup (copyfile [("/tmp/t", ⟨[1, 2], 0⟩), ("/d/o", ⟨[3, 4], 9⟩)]
        "/tmp/t" "/d/o" false).1 "/tmp/t" = some ⟨[1, 2], 0⟩ := by
  decide

/-- Claim C2 (amended): whenever `copyfile` reports `changed = false`
(under either comparison strategy) it leaves the filesystem entirely
unchanged — in particular the temp artifact is NOT removed; the scratch
file is moved away only when the destination is overwritten or created. -/
theorem copyfile_unchanged_keeps_temp (fs : FS) (src dest : String) (dc : Bool)
    (h : (copyfile fs src dest dc).2 = false) :
    (copyfile fs src dest dc).1 = fs := by
  unfold copyfile at h ⊢
  by_cases hd : isfile fs dest = true
  · rw [if_pos hd] at h ⊢
    by_cases hn :
        (if dc then filecmpCmpShallow fs src dest
         else
           match getsize fs dest, getsize fs src with
           | some destsize, some srcsize => decide (destsize = srcsize)
           | _, _ => false) = false
    · simp only [hn, if_pos] at h
      exact absurd h (by decide)
    · simp only [if_neg hn]
  · rw [if_neg hd] at h
    simp at h

/-- Witness for `copyfile_unchanged_keeps_temp` at a concrete unchanged
invocation. -/
theorem copyfile_unchanged_keeps_temp_witness :
    (copyfile [("/tmp/t", ⟨[5], 0⟩), ("/e/o", ⟨[6], 9⟩)] "/tmp/t" "/e/o" false).1
      = [("/tmp/t", ⟨[5], 0⟩), ("/e/o", ⟨[6], 9⟩)] :=
  copyfile_unchanged_keeps_temp _ "/tmp/t" "/e/o" false (by decide)

/-- Claim C4: the filename deriver on the claim's table — suffix
stripping of `.gz`/`.bz2`/`.xz`/`.lzma`, rewriting of `.txz`/`.tlz` to
`.tar`, last-segment extraction with query-string removal for
recognized-scheme URLs, and names without a recognized suffix returned
unchanged. -/
theorem derive_uncompressed_filename_table :
    derive_uncompressed_filename "foo.gz" = "foo" ∧
    derive_uncompressed_filename "archive.tar.gz" = "archive.tar" ∧
    derive_uncompressed_filename "https://example.com/app.bz2" = "app" ∧
    derive_uncompressed_filename
      "https://example.com/download/file.gz?version=1.0&token=abc" = "file" ∧
    derive_uncompressed_filename "pkg.txz" = "pkg.tar" ∧
    derive_uncompressed_filename "README" = "README" := by
  decide

/-- Claim C5: with an existing destination and `deep_check` not
requested, `copyfile` compares byte sizes only: equal sizes report
`changed = false` and leave the filesystem (hence the destination's
possibly different content) untouched; unequal sizes move the temp file
over the destination and report `changed = true`. -/
theorem copyfile_fast_size_only (fs : FS) (src dest : String) (ds ss : FileData)
    (hd : fsLookup fs dest = some ds) (hs : fsLookup fs src = some ss) :
    (ss.content.length = ds.content.length →
      copyfile fs src dest false = (fs, false)) ∧
    (ss.content.length ≠ ds.content.length →
      copyfile fs src dest false = (fsMove fs src dest, true)) := by
  constructor
  · intro he
    simp [copyfile, isfile, hd, getsize, hs, he]
  · intro he
    have he2 : ¬ (ds.content.length = ss.content.length) := fun hh => he hh.symm
    simp [copyfile, isfile, hd, getsize, hs, he2]

/-- Witness for `copyfile_fast_size_only`: equal sizes with different
content report unchanged; a different size triggers the move. -/
theorem copyfile_fast_size_only_witness :
    copyfile [("/tmp/w", ⟨[1, 2], 0⟩), ("/w/o", ⟨[3, 4], 9⟩)] "/tmp/w" "/w/o" false
      = ([("/tmp/w", ⟨[1, 2], 0⟩), ("/w/o", ⟨[3, 4], 9⟩)], false) ∧
    copyfile [("/tmp/w", ⟨[1, 2, 3], 0⟩), ("/w/o", ⟨[3, 4], 9⟩)] "/tmp/w" "/w/o" false
      = (fsMove [("/tmp/w", ⟨[1, 2, 3], 0⟩), ("/w/o", ⟨[3, 4], 9⟩)] "/tmp/w" "/w/o",
         true) :=
  ⟨(copyfile_fast_size_only _ "/tmp/w" "/w/o" ⟨[3, 4], 9⟩ ⟨[1, 2], 0⟩
      (by decide) (by decide)).1 (by decide),
   (copyfile_fast_size_only _ "/tmp/w" "/w/o" ⟨[3, 4], 9⟩ ⟨[1, 2, 3], 0⟩
      (by decide) (by decide)).2 (by decide)⟩

/-- Claim C6 (counterexample): with destination `/tmp/out` — absent
beforehand — and a valid gzip source, the FIRST invocation already
reports `changed = false`, because the temp path coincides with the
destination and the materializer compares the freshly written file with
itself; the claim requires `changed = true` on the first invocation. -/
theorem first_run_not_changed_for_tmp_dest :
    main (fun _ => none) 9
        ⟨[("/data/a.gz", ⟨[31, 139, 8, 0, 0, 0, 0, 0, 0, 3, 7], 3⟩)], ["/tmp"]⟩
        "/data/a.gz" "/tmp/out" true false
      = MainResult.ok
          ⟨[("/tmp/out", ⟨[7], 9⟩),
            ("/data/a.gz", ⟨[31, 139, 8, 0, 0, 0, 0, 0, 0, 3, 7], 3⟩)], ["/tmp"]⟩
          false "/tmp/out" := by
  decide

/-- Claim C6 (amended): for a destination whose temp path differs from
the destination itself (here `/dst/out`, temp `/tmp/out`), two successive
runs with the same compressed bytes and either comparison strategy report
`changed = true` then `changed = false`: the first materializes the
decompressed payload at the destination, the second regenerates the temp
artifact, finds the destination equivalent, and changes nothing. -/
theorem pipeline_idempotent_two_runs (payload : List Nat) (t now1 now2 : Nat)
    (dc : Bool) :
    main (fun _ => none) now1
        ⟨[("/data/a.gz", ⟨gzHeader ++ payload, t⟩)], ["/dst"]⟩
        "/data/a.gz" "/dst/out" true dc
      = MainResult.ok
          ⟨[("/dst/out", ⟨payload, now1⟩),
            ("/data/a.gz", ⟨gzHeader ++ payload, t⟩)], ["/dst"]⟩
          true "/dst/out" ∧
    main (fun _ => none) now2
        ⟨[("/dst/out", ⟨payload, now1⟩),
          ("/data/a.gz", ⟨gzHeader ++ payload, t⟩)], ["/dst"]⟩
        "/data/a.gz" "/dst/out" true dc
      = MainResult.ok
          ⟨[("/tmp/out", ⟨payload, now2⟩), ("/dst/out", ⟨payload, now1⟩),
            ("/data/a.gz", ⟨gzHeader ++ payload, t⟩)], ["/dst"]⟩
          false "/dst/out" := by
  constructor <;>
  · cases dc <;>
    · by_cases hmt : now2 = now1 <;>
      simp [main, isfile, isdir, filetype, ungzip, finishStep, copyfile, getsize,
        filecmpCmpShallow, fsInsert, fsErase, fsLookup, fsMove, hmt,
        fileCommand_gzHeader, decodeGzip_gzHeader,
        (show gzHeader.length = 10 by decide),
        (show tempPathFor "/dst/out" = "/tmp/out" by decide),
        (show path_split "/dst/out" = ("/dst", "out") by decide),
        (show (["/dst"] : List String).contains "/dst/out" = false by decide),
        (show (["/dst"] : List String).contains "/dst" = true by decide),
        (show listInf "gzip".data "application/gzip; charset=binary".data = true
          by decide)]

/-- Claim C9: when the resolved destination lies directly in `/tmp`
(`/tmp/<name>` with a slash-free name), the temp path `main` computes
equals the destination itself; `copyfile` invoked with identical source
and destination reports `changed = false` under either strategy; and a
full pipeline run onto such a destination — here absent beforehand —
succeeds with `changed = false`, the decompressor having written the
destination directly. -/
theorem tmp_destination_self_comparison :
    (∀ (name : String), (∀ c ∈ name.data, c ≠ '/') →
      tempPathFor ("/tmp/" ++ name) = "/tmp/" ++ name) ∧
    (∀ (fs : FS) (p : String) (dc : Bool), isfile fs p = true →
      copyfile fs p p dc = (fs, false)) ∧
    (∀ (payload : List Nat) (t now : Nat) (dc : Bool),
      main (fun _ => none) now
          ⟨[("/data/a.gz", ⟨gzHeader ++ payload, t⟩)], ["/tmp"]⟩
          "/data/a.gz" "/tmp/out" true dc
        = MainResult.ok
            ⟨[("/tmp/out", ⟨payload, now⟩),
              ("/data/a.gz", ⟨gzHeader ++ payload, t⟩)], ["/tmp"]⟩
            false "/tmp/out") := by
  refine ⟨tempPathFor_tmp, copyfile_self, ?_⟩
  intro payload t now dc
  cases dc <;>
    simp [main, isfile, isdir, filetype, ungzip, finishStep, copyfile, getsize,
      filecmpCmpShallow, fsInsert, fsErase, fsLookup, fsMove,
      fileCommand_gzHeader, decodeGzip_gzHeader,
      (show gzHeader.length = 10 by decide),
      (show tempPathFor "/tmp/out" = "/tmp/out" by decide),
      (show path_split "/tmp/out" = ("/tmp", "out") by decide),
      (show (["/tmp"] : List String).contains "/tmp/out" = false by decide),
      (show (["/tmp"] : List String).contains "/tmp" = true by decide),
      (show listInf "gzip".data "application/gzip; charset=binary".data = true
        by decide)]

/-- Witness for `tmp_destination_self_comparison` at a slash-free name, a
concrete self-comparison, and a concrete `/tmp/out` pipeline run. -/
theorem tmp_destination_self_comparison_witness :
    tempPathFor ("/tmp/" ++ "foo") = "/tmp/" ++ "foo" ∧
    copyfile [("/q", ⟨[1], 0⟩)] "/q" "/q" true = ([("/q", ⟨[1], 0⟩)], false) ∧
    main (fun _ => none) 9 ⟨[("/data/a.gz", ⟨gzHeader ++ [7], 3⟩)], ["/tmp"]⟩
        "/data/a.gz" "/tmp/out" true true
      = MainResult.ok
          ⟨[("/tmp/out", ⟨[7], 9⟩), ("/data/a.gz", ⟨gzHeader ++ [7], 3⟩)], ["/tmp"]⟩
          false "/tmp/out" :=
  ⟨tmp_destination_self_comparison.1 "foo" (by decide),
   tmp_destination_self_comparison.2.1 _ "/q" true (by decide),
   tmp_destination_self_comparison.2.2 [7] 3 9 true⟩

/-- Claim C10 (counterexample): a gzip-detected but truncated source
aimed at destination `/tmp/out` — absent beforehand — fails during
decompression, yet the failed invocation has CREATED the destination
file (the decompressor truncate-opened the temp path, which here is the
destination itself), contradicting the claim that a failing invocation
never creates or modifies the destination. -/
theorem failed_decode_creates_tmp_destination :
    main (fun _ => none) 5 ⟨[("/data/bad.gz", ⟨[31, 139], 3⟩)], ["/tmp"]⟩
        "/data/bad.gz" "/tmp/out" true false
      = MainResult.fail
          ⟨[("/tmp/out", ⟨[], 5⟩), ("/data/bad.gz", ⟨[31, 139], 3⟩)], ["/tmp"]⟩
          "Error -3 while decompressing data" ∧
    isfile [("/tmp/out", ⟨[], 5⟩), ("/data/bad.gz", ⟨[31, 139], 3⟩)] "/tmp/out"
      = true := by
  decide

/-- Claim C10 (amended): on a decompression failure (gzip-detected
content that does not decode), the run fails terminally with only the
temp path freshly (and emptily) written, and — provided the destination
differs from its own temp path, i.e. does not lie directly in `/tmp` —
the destination is not created or modified: its directory entry after the
failure equals the one before.  (On an unsupported-format failure the
state is untouched entirely; see the C8 theorem.) -/
theorem decode_failure_leaves_destination_untouched
    (fetch : String → Option (List Nat)) (now : Nat) (sys : Sys)
    (src dest : String) (copy dc : Bool) (f : FileData)
    (hs : fsLookup sys.files src = some f)
    (hnz : f.content.length ≠ 0)
    (hdd : isdir sys dest = false)
    (hfd : isdir sys (path_split dest).1 = true)
    (hgz : listPre gzipMagic f.content = true)
    (hbad : decodeGzip f.content = none)
    (hne : dest ≠ tempPathFor dest) :
    main fetch now sys src dest copy dc
      = MainResult.fail
          ⟨fsInsert sys.files (tempPathFor dest) ⟨[], now⟩, sys.dirs⟩
          "Error -3 while decompressing data" ∧
    fsLookup (fsInsert sys.files (tempPathFor dest) ⟨[], now⟩) dest
      = fsLookup sys.files dest := by
  have hfc : fileCommand f.content = "application/gzip; charset=binary" := by
    simp [fileCommand, hgz]
  constructor
  · simp [main, isfile, hs, hnz, hdd, hfd, filetype, hfc, ungzip, hbad, finishStep,
      (show listInf "gzip".data "application/gzip; charset=binary".data = true
        by decide)]
  · exact fsLookup_insert_ne sys.files (tempPathFor dest) dest ⟨[], now⟩ hne

/-- Witness for `decode_failure_leaves_destination_untouched`: a
truncated gzip source aimed at `/out/x` fails and leaves `/out/x`
nonexistent, only `/tmp/x` having been scribbled. -/
theorem decode_failure_leaves_destination_untouched_witness :
    main (fun _ => none) 5 ⟨[("/data/bad.gz", ⟨[31, 139], 3⟩)], ["/out"]⟩
        "/data/bad.gz" "/out/x" true false
      = MainResult.fail
          ⟨fsInsert [("/data/bad.gz", ⟨[31, 139], 3⟩)] (tempPathFor "/out/x")
              ⟨[], 5⟩, ["/out"]⟩
          "Error -3 while decompressing data" ∧
    fsLookup (fsInsert [("/data/bad.gz", ⟨[31, 139], 3⟩)] (tempPathFor "/out/x")
        ⟨[], 5⟩) "/out/x"
      = fsLookup [("/data/bad.gz", ⟨[31, 139], 3⟩)] "/out/x" :=
  decode_failure_leaves_destination_untouched (fun _ => none) 5
    ⟨[("/data/bad.gz", ⟨[31, 139], 3⟩)], ["/out"]⟩ "/data/bad.gz" "/out/x"
    true false ⟨[31, 139], 3⟩ (by decide) (by decide) (by decide) (by decide)
    (by decide) (by decide) (by decide)

/-- Claim C3 (counterexample): a source whose content is detected as xz
but whose filename carries a misleading `.gz` extension — or no extension
at all — does NOT decompress: `unxzip` guesses the external tool's output
name from the filename suffix and fails terminally with
`xz does not understand suffix`, even though routing to the xz
decompressor from the content succeeded. -/
theorem xz_content_with_misleading_name_fails :
    main (fun _ => none) 9
        ⟨[("/data/app.gz", ⟨[253, 55, 122, 88, 90, 0, 0, 4, 7], 3⟩)], ["/dst"]⟩
        "/data/app.gz" "/dst/out" true false
      = MainResult.fail
          ⟨[("/data/app.gz", ⟨[253, 55, 122, 88, 90, 0, 0, 4, 7], 3⟩)], ["/dst"]⟩
          "xz does not understand suffix .gz" ∧
    main (fun _ => none) 9
        ⟨[("/data/archive", ⟨[253, 55, 122, 88, 90, 0, 0, 4, 7], 3⟩)], ["/dst"]⟩
        "/data/archive" "/dst/out" true false
      = MainResult.fail
          ⟨[("/data/archive", ⟨[253, 55, 122, 88, 90, 0, 0, 4, 7], 3⟩)], ["/dst"]⟩
          "xz does not understand suffix " := by
  decide

/-- Claim C3 (amended): detection is content-based, and the gzip and
bzip2 paths decompress correctly whatever the source filename (first two
conjuncts: any source name, so any extension or none); the xz path
decompresses only when the source filename carries a suffix the output
prediction understands, succeeding for `.xz` (third conjunct) and failing
terminally for any other suffix even with genuine xz content (fourth
conjunct). -/
theorem content_based_routing_amended :
    (∀ (name : String) (payload : List Nat) (t now : Nat),
      ("/data/" ++ name) ≠ "/tmp/out" → ("/data/" ++ name) ≠ "/dst/out" →
      main (fun _ => none) now
          ⟨[("/data/" ++ name, ⟨gzHeader ++ payload, t⟩)], ["/dst"]⟩
          ("/data/" ++ name) "/dst/out" true false
        = MainResult.ok
            ⟨[("/dst/out", ⟨payload, now⟩),
              ("/data/" ++ name, ⟨gzHeader ++ payload, t⟩)], ["/dst"]⟩
            true "/dst/out") ∧
    (∀ (name : String) (payload : List Nat) (t now : Nat),
      ("/data/" ++ name) ≠ "/tmp/out" → ("/data/" ++ name) ≠ "/dst/out" →
      main (fun _ => none) now
          ⟨[("/data/" ++ name, ⟨bz2Header ++ payload, t⟩)], ["/dst"]⟩
          ("/data/" ++ name) "/dst/out" true false
        = MainResult.ok
            ⟨[("/dst/out", ⟨payload, now⟩),
              ("/data/" ++ name, ⟨bz2Header ++ payload, t⟩)], ["/dst"]⟩
            true "/dst/out") ∧
    (∀ (payload : List Nat) (t now : Nat),
      main (fun _ => none) now
          ⟨[("/data/a.xz", ⟨xzHeader ++ payload, t⟩)], ["/dst"]⟩
          "/data/a.xz" "/dst/out" true false
        = MainResult.ok
            ⟨[("/dst/out", ⟨payload, now⟩),
              ("/data/a.xz", ⟨xzHeader ++ payload, t⟩)], ["/dst"]⟩
            true "/dst/out") ∧
    (∀ (payload : List Nat) (t now : Nat),
      main (fun _ => none) now
          ⟨[("/data/app.gz", ⟨xzHeader ++ payload, t⟩)], ["/dst"]⟩
          "/data/app.gz" "/dst/out" true false
        = MainResult.fail
            ⟨[("/data/app.gz", ⟨xzHeader ++ payload, t⟩)], ["/dst"]⟩
            "xz does not understand suffix .gz") := by
  refine ⟨?_, ?_, ?_, ?_⟩
  · intro name payload t now hn1 hn2
    simp [main, isfile, isdir, filetype, ungzip, finishStep, copyfile, getsize,
      fsInsert, fsErase, fsLookup, fsMove, hn1, hn2,
      fileCommand_gzHeader, decodeGzip_gzHeader,
      (show gzHeader.length = 10 by decide),
      (show tempPathFor "/dst/out" = "/tmp/out" by decide),
      (show path_split "/dst/out" = ("/dst", "out") by decide),
      (show (["/dst"] : List String).contains "/dst/out" = false by decide),
      (show (["/dst"] : List String).contains "/dst" = true by decide),
      (show listInf "gzip".data "application/gzip; charset=binary".data = true
        by decide)]
  · intro name payload t now hn1 hn2
    simp [main, isfile, isdir, filetype, unbzip, finishStep, copyfile, getsize,
      fsInsert, fsErase, fsLookup, fsMove, hn1, hn2,
      fileCommand_bz2Header, decodeBzip2_bz2Header,
      (show bz2Header.length = 4 by decide),
      (show tempPathFor "/dst/out" = "/tmp/out" by decide),
      (show path_split "/dst/out" = ("/dst", "out") by decide),
      (show (["/dst"] : List String).contains "/dst/out" = false by decide),
      (show (["/dst"] : List String).contains "/dst" = true by decide),
      (show listInf "gzip".data "application/x-bzip2; charset=binary".data = false
        by decide),
      (show listInf "x-bzip2".data "application/x-bzip2; charset=binary".data = true
        by decide)]
  · intro payload t now
    simp [main, isfile, isdir, filetype, unxzip, xzRun, xzTool, xzOutName,
      finishStep, copyfile, getsize, fsInsert, fsErase, fsLookup, fsMove,
      fileCommand_xzHeader, decodeXz_xzHeader,
      (show xzHeader.length = 8 by decide),
      (show tempPathFor "/dst/out" = "/tmp/out" by decide),
      (show path_split "/dst/out" = ("/dst", "out") by decide),
      (show splitext "/data/a.xz" = ("/data/a", ".xz") by decide),
      (show (["/dst"] : List String).contains "/dst/out" = false by decide),
      (show (["/dst"] : List String).contains "/dst" = true by decide),
      (show listInf "gzip".data "application/x-xz; charset=binary".data = false
        by decide),
      (show listInf "x-bzip2".data "application/x-xz; charset=binary".data = false
        by decide),
      (show listInf "x-xz".data "application/x-xz; charset=binary".data = true
        by decide)]
  · intro payload t now
    simp [main, isfile, isdir, filetype, unxzip, finishStep,
      fsLookup, fileCommand_xzHeader,
      (show xzHeader.length = 8 by decide),
      (show tempPathFor "/dst/out" = "/tmp/out" by decide),
      (show path_split "/dst/out" = ("/dst", "out") by decide),
      (show splitext "/data/app.gz" = ("/data/app", ".gz") by decide),
      (show (["/dst"] : List String).contains "/dst/out" = false by decide),
      (show (["/dst"] : List String).contains "/dst" = true by decide),
      (show listInf "gzip".data "application/x-xz; charset=binary".data = false
        by decide),
      (show listInf "x-bzip2".data "application/x-xz; charset=binary".data = false
        by decide),
      (show listInf "x-xz".data "application/x-xz; charset=binary".data = true
        by decide)]

/-- Witness for `content_based_routing_amended`: a gzip source named with
a misleading `.weird` extension and a bzip2 source with no extension both
decompress; a `.xz`-named xz source decompresses; an xz source named
`.gz` fails on the suffix. -/
theorem content_based_routing_amended_witness :
    main (fun _ => none) 9
        ⟨[("/data/" ++ "app.weird", ⟨gzHeader ++ [1], 3⟩)], ["/dst"]⟩
        ("/data/" ++ "app.weird") "/dst/out" true false
      = MainResult.ok
          ⟨[("/dst/out", ⟨[1], 9⟩),
            ("/data/" ++ "app.weird", ⟨gzHeader ++ [1], 3⟩)], ["/dst"]⟩
          true "/dst/out" ∧
    main (fun _ => none) 9
        ⟨[("/data/" ++ "noext", ⟨bz2Header ++ [2], 3⟩)], ["/dst"]⟩
        ("/data/" ++ "noext") "/dst/out" true false
      = MainResult.ok
          ⟨[("/dst/out", ⟨[2], 9⟩),
            ("/data/" ++ "noext", ⟨bz2Header ++ [2], 3⟩)], ["/dst"]⟩
          true "/dst/out" ∧
    main (fun _ => none) 9
        ⟨[("/data/a.xz", ⟨xzHeader ++ [3], 3⟩)], ["/dst"]⟩
        "/data/a.xz" "/dst/out" true false
      = MainResult.ok
          ⟨[("/dst/out", ⟨[3], 9⟩), ("/data/a.xz", ⟨xzHeader ++ [3], 3⟩)], ["/dst"]⟩
          true "/dst/out" ∧
    main (fun _ => none) 9
        ⟨[("/data/app.gz", ⟨xzHeader ++ [4], 3⟩)], ["/dst"]⟩
        "/data/app.gz" "/dst/out" true false
      = MainResult.fail
          ⟨[("/data/app.gz", ⟨xzHeader ++ [4], 3⟩)], ["/dst"]⟩
          "xz does not understand suffix .gz" :=
  ⟨content_based_routing_amended.1 "app.weird" [1] 3 9 (by decide) (by decide),
   content_based_routing_amended.2.1 "noext" [2] 3 9 (by decide) (by decide),
   content_based_routing_amended.2.2.1 [3] 3 9,
   content_based_routing_amended.2.2.2 [4] 3 9⟩

end Uncompress
